import Mathlib

/-!
Shallow embedding of `src/autotrain/project.py` (HuggingFace AutoTrain job
orchestration shim).  Python dicts of job parameters become association lists
over a dynamic `Value` type; Python exceptions become an explicit `PyErr`
error type returned through `Except`; filesystem and HTTP side effects become
explicit state records and action traces.  External collaborators that are not
part of the source file (the `TASKS` registry, the `SUPPORTED_LANGUAGES` set,
the four trainer entry points, the remote HTTP endpoints) are parameters of
the embedded functions, as the spec treats them as interface boundaries.
-/

/-- Dynamic values carried in job-parameter records: the Python code only ever
stores strings and integers in the fields this module inspects. -/
inductive Value where
  | str : String → Value
  | nat : Nat → Value
  deriving DecidableEq, Repr

/-- Python `str(...)` rendering of a `Value`, used by f-strings and
`str(self.language)`. -/
def valueStr : Value → String
  | .str s => s
  | .nat n => toString n

/-- Python `str.lower()` (the code only applies it to ASCII identifiers). -/
def pyLower (s : String) : String := String.mk (s.data.map Char.toLower)

def isPySpace (c : Char) : Bool := c == ' ' || c == '\t' || c == '\n' || c == '\r'

/-- Python `str.strip()`: drop leading and trailing whitespace. -/
def pyStrip (s : String) : String :=
  String.mk (((s.data.dropWhile isPySpace).reverse.dropWhile isPySpace).reverse)

/-- Python exceptions raised by `project.py`: `ValueError` (with its message,
this is the spec's ConfigurationError / ConflictError / ProjectExistsError
family), `IndexError` (list subscript out of range), `KeyError` (dict
subscript miss), `AttributeError` (reading an attribute that was never
assigned, e.g. `self.max_models`) and `NotImplementedError`. -/
inductive PyErr where
  | valueError : String → PyErr
  | indexError : PyErr
  | keyError : PyErr
  | attributeError : PyErr
  | notImplemented : PyErr
  deriving DecidableEq, Repr

/-- A job-parameter record: one Python dict row of `job_params`. -/
abbrev Record := List (String × Value)

/-- Python `k in d` membership test on a record. -/
def hasKey (r : Record) (k : String) : Bool :=
  r.any (fun p => p.1 == k)

/-- Python `d[k]` lookup on a record (the code only uses it under an `in`
guard, so the `Option` is always `some` at call sites). -/
def getKey (r : Record) (k : String) : Option Value :=
  (r.find? (fun p => p.1 == k)).map (fun p => p.2)

/-- Python `d.pop(k)`: the record with key `k` removed. -/
def popKey (r : Record) (k : String) : Record :=
  r.filter (fun p => !(p.1 == k))

/-- Constructor arguments of `Project` (`dataset` contributes `token`,
`project_name`, `username` and `task`). -/
structure ProjectInput where
  token : Option String
  projectName : String
  username : String
  task : String
  paramChoice : String
  hubModel : Option String
  jobParams : Option (List Record)
  deriving Repr

/-- Lines 129-134 of `__post_init__`: an empty-string `hub_model` is coerced
to `None` before any of the validation checks run. -/
def effectiveHubModel : Option String → Option String
  | some h => if h.length = 0 then none else some h
  | none => none

/-- The attributes `__post_init__` leaves on a `Project` on success.
`maxModels = none` models the Python attribute `self.max_models` never having
been assigned. -/
structure ProjectState where
  token : String
  name : String
  username : String
  task : String
  paramChoice : String
  hubModel : Option String
  jobParams : List Record
  language : Value
  maxModels : Option Value
  deriving DecidableEq, Repr

def loginMsg : String := "Please login using huggingface-cli login"

def hubNeedsParamsMsg : String := "Job parameters are required when hub model is specified."

def onlyOneJobMsg : String := "Only one job parameter is allowed in AutoTrain mode."

def numModelsMsg : String := "Please specify num_models in job_params when using AutoTrain model"

/-- `Project.__post_init__` (lines 121-171): normalization and validation of
the job configuration.  Mirrors the Python statement by statement: lower-case
the param choice, coerce an empty hub model to `None`, default `job_params`
to `[]`, run the three validation checks, then in autotrain mode extract the
language keys (mutating record 0 in place) and then the model count. -/
def postInit (inp : ProjectInput) : Except PyErr ProjectState :=
  let paramChoice := pyLower inp.paramChoice
  let hubModel := effectiveHubModel inp.hubModel
  let jobParams := inp.jobParams.getD []
  match inp.token with
  | none => .error (.valueError loginMsg)
  | some token =>
    if hubModel.isSome && jobParams.length == 0 then
      .error (.valueError hubNeedsParamsMsg)
    else if hubModel.isNone && decide (jobParams.length > 1) then
      .error (.valueError onlyOneJobMsg)
    else if paramChoice == "autotrain" then
      match jobParams with
      | [] => .error .indexError
      | r0 :: restRecords =>
        let langStep : Value × Record :=
          if hasKey r0 "source_language" && !(hasKey r0 "target_language") then
            ((getKey r0 "source_language").getD (.str ""), popKey r0 "source_language")
          else if hasKey r0 "source_language" && hasKey r0 "target_language" then
            (.str (valueStr ((getKey r0 "target_language").getD (.str "")) ++ "2" ++
                   valueStr ((getKey r0 "source_language").getD (.str ""))),
             popKey (popKey r0 "source_language") "target_language")
          else
            (.str "unk", r0)
        let language := langStep.1
        let r1 := langStep.2
        if hasKey r1 "num_models" then
          .ok { token := token, name := inp.projectName, username := inp.username,
                task := inp.task, paramChoice := paramChoice, hubModel := hubModel,
                jobParams := popKey r1 "num_models" :: restRecords,
                language := language, maxModels := getKey r1 "num_models" }
        else if !(hasKey r1 "num_models") && hasKey r1 "source_language" then
          .error (.valueError numModelsMsg)
        else
          .ok { token := token, name := inp.projectName, username := inp.username,
                task := inp.task, paramChoice := paramChoice, hubModel := hubModel,
                jobParams := r1 :: restRecords,
                language := language, maxModels := none }
    else
      .ok { token := token, name := inp.projectName, username := inp.username,
            task := inp.task, paramChoice := paramChoice, hubModel := hubModel,
            jobParams := jobParams,
            language := .str "unk", maxModels := some (.nat jobParams.length) }

/-- A constructor input with the given hub model and job parameters, used by
concrete witnesses and counterexamples below. -/
def mkInput (hubModel : Option String) (jobParams : Option (List Record)) : ProjectInput :=
  { token := some "hf_token", projectName := "proj", username := "user",
    task := "text_multi_class_classification", paramChoice := "autotrain",
    hubModel := hubModel, jobParams := jobParams }

/-! ### `Project.create` — the backend dispatcher (lines 229-271)

The `TASKS` registry and `SUPPORTED_LANGUAGES` set live in modules of this
repository that are outside the embedded source file, so they are parameters
here; the remote `POST /projects/create` response is likewise an input. -/

/-- The payload dict built by `Project.create` (lines 245-257), flattened:
`config.advanced` is always `true`.  A payload only exists once every
attribute it reads was assigned, so `maxModels` here is a plain `Value`. -/
structure Payload where
  username : String
  projName : String
  task : Nat
  advanced : Bool
  autotrain : Bool
  language : String
  maxModels : Value
  hubModel : Option String
  params : List Record
  deriving DecidableEq, Repr

/-- JSON fields of the remote job-creation response (lines 264-267). -/
structure CreateResponse where
  projName : String
  id : Nat
  created : Bool
  deriving DecidableEq, Repr

/-- Outcome of `Project.create`: the new remote project id, or delegation of
the built payload to `create_local` when the `local` flag is set. -/
inductive CreateResult where
  | projId : Nat → CreateResult
  | localRun : Payload → CreateResult
  deriving DecidableEq, Repr

def invalidTaskMsg : String := "Invalid task selected."

def invalidLanguageMsg : String :=
  "Invalid language. Please check supported languages in AutoTrain documentation."

def projectExistsMsg (projName : String) : String :=
  "Project with name " ++ projName ++ " already exists."

/-- The language tag `Project.create` submits (lines 235-240): the stringified
stored language, stripped and lowercased, replaced by "unk" whenever a hub
model override is present. -/
def submissionLanguage (st : ProjectState) : String :=
  if st.hubModel.isSome then "unk" else pyLower (pyStrip (valueStr st.language))

/-- `Project.create` (lines 229-271).  `tasks` is the `TASKS` registry and
`supported` the `SUPPORTED_LANGUAGES` set, both external modules of this
repository; `resp` is the JSON body answered by the remote job-creation
endpoint on the non-local path.  Building the payload dict reads
`self.max_models` (line 253): when `__post_init__` left that attribute
unassigned (`maxModels = none`), Python raises `AttributeError` there,
after the language check but before any request. -/
def create (tasks : String → Option Nat) (supported : List String)
    (st : ProjectState) (isLocal : Bool) (resp : CreateResponse) :
    Except PyErr CreateResult :=
  match tasks st.task with
  | none => .error (.valueError invalidTaskMsg)
  | some taskId =>
    let language := submissionLanguage st
    if !(supported.contains language) then
      .error (.valueError invalidLanguageMsg)
    else
      match st.maxModels with
      | none => .error .attributeError
      | some mm =>
        let payload : Payload :=
          { username := st.username, projName := st.name, task := taskId,
            advanced := true, autotrain := st.paramChoice == "autotrain",
            language := language, maxModels := mm,
            hubModel := st.hubModel, params := st.jobParams }
        if isLocal then .ok (.localRun payload)
        else if resp.created then .ok (.projId resp.id)
        else .error (.valueError (projectExistsMsg resp.projName))

/-! ### `Project.create_local` — the Local Execution Guard (lines 173-227)

The four trainer entry points are external collaborators; the filesystem is
an explicit state: the `/tmp/training` lock marker, the set of directories
created, and the trace of trainer dispatches. -/

/-- Results of the four trainer entry points imported at the top of
`create_local`; each either returns (payload irrelevant here) or raises. -/
structure Trainers where
  textClassification : Payload → Except PyErr Unit
  imageClassification : Payload → Except PyErr Unit
  dreambooth : Payload → Except PyErr Unit
  lmTrainer : Payload → Except PyErr Unit

/-- Observable local filesystem effects: existence of the `/tmp/training`
lock marker, directories created by `os.makedirs`, and the task ids for which
a trainer entry point was invoked. -/
structure LocalState where
  lockExists : Bool
  dirs : List String
  trainerCalls : List Nat
  deriving DecidableEq, Repr

def anotherJobMsg : String := "Another training job is already running in this workspace."

def onlyOneLocalMsg : String := "Only one job parameter is allowed in spaces/local mode."

/-- Code after a trainer entry point returns or raises (lines 195-227): only
when the trainer returned normally does `os.remove` delete the lock marker;
a raise propagates with the lock marker still present. -/
def afterTrainer (r : Except PyErr Unit) (s : LocalState) :
    Except PyErr Unit × LocalState :=
  match r with
  | .ok _ => (.ok (), { s with lockExists := false })
  | .error e => (.error e, s)

/-- `Project.create_local` (lines 173-227): the lock-marker check, the
single-job check, `os.makedirs` of the model path, writing the lock marker,
then dispatch on the numeric task id. -/
def create_local (tr : Trainers) (payload : Payload) (s : LocalState) :
    Except PyErr Unit × LocalState :=
  if s.lockExists then
    (.error (.valueError anotherJobMsg), s)
  else if decide (payload.params.length > 1) then
    (.error (.valueError onlyOneLocalMsg), s)
  else
    let modelPath := "/tmp/model/" ++ payload.projName
    let s2 : LocalState := { s with dirs := s.dirs ++ [modelPath], lockExists := true }
    if payload.task == 1 || payload.task == 2 then
      afterTrainer (tr.textClassification payload)
        { s2 with trainerCalls := s2.trainerCalls ++ [payload.task] }
    else if payload.task == 17 || payload.task == 18 then
      afterTrainer (tr.imageClassification payload)
        { s2 with trainerCalls := s2.trainerCalls ++ [payload.task] }
    else if payload.task == 25 then
      afterTrainer (tr.dreambooth payload)
        { s2 with trainerCalls := s2.trainerCalls ++ [payload.task] }
    else if payload.task == 9 then
      afterTrainer (tr.lmTrainer payload)
        { s2 with trainerCalls := s2.trainerCalls ++ [payload.task] }
    else
      (.error .notImplemented, s2)

/-! ### `Project.approve` — the approval state machine (lines 273-299)

The remote status endpoint is modelled as the list of `status` codes the
successive polls would observe; the function returns the trace of remote
requests issued, or `none` when the supplied status list is exhausted before
the completion code 3 appears (the Python loop would still be polling). -/

/-- Remote requests issued by `Project.approve`, in order. -/
inductive ApproveEvent where
  | startProcessing
  | poll
  | startTraining
  deriving DecidableEq, Repr

/-- The `while` loop of `approve` (lines 281-292): one `poll` per iteration,
leaving the loop exactly when a poll observes status 3. -/
def pollLoop : List Nat → Option (List ApproveEvent)
  | [] => none
  | s :: rest =>
    if s == 3 then some [.poll]
    else (pollLoop rest).map (fun es => .poll :: es)

/-- `Project.approve` (lines 273-299): one start-processing request, the poll
loop, then one start-training request. -/
def approve (statuses : List Nat) : Option (List ApproveEvent) :=
  (pollLoop statuses).map (fun es => .startProcessing :: (es ++ [.startTraining]))

/-! ### `AutoTrainProject` — the Remote Container Provisioner (lines 23-111)

`create_spaces` drives the `HfApi` client; its calls become an explicit trace
of `SpaceAction`s.  The `httpPost` constructor stands for the default remote
job-creation endpoint (`http_post` in `Project.create`), which this class
never invokes. -/

/-- Remote calls a backend dispatch can issue: Space repo creation, secret
injection, file upload, or the default remote job-creation HTTP request. -/
inductive SpaceAction where
  | createRepo (repoId repoType sdk hardware : String) (priv : Bool)
  | addSecret (repoId key value : String)
  | uploadFile (repoId pathInRepo content : String)
  | httpPost (path : String)
  deriving DecidableEq, Repr

/-- The state `AutoTrainProject.__post_init__` leaves on the object: identity
from the dataset, the backend and serialized parameter rows from the
`job_params` table, and the task id from the `TASKS` registry. -/
structure ATState where
  token : String
  projectName : String
  username : String
  taskId : Option Nat
  backend : String
  jobParams : List Record
  deriving Repr

/-- `self.data_path` (line 33): `f"{self.username}/autotrain-data-{self.project_name}"`. -/
def dataPath (p : ATState) : String :=
  p.username ++ "/autotrain-data-" ++ p.projectName

/-- Python `str(...)` of an optional task id (`str(self.task_id)`, line 77):
`None` renders as the string "None". -/
def pyStrOptNat : Option Nat → String
  | none => "None"
  | some n => toString n

/-- `self.spaces_backends` (lines 46-54): the five accelerator hardware
tiers. -/
def spaces_backends : List (String × String) :=
  [("A10G Large", "a10g-large"), ("A10G Small", "a10g-small"),
   ("A100 Large", "a100-large"), ("T4 Medium", "t4-medium"),
   ("T4 Small", "t4-small")]

/-- Python `self.spaces_backends[backend]` dict lookup. -/
def lookupBackend (backend : String) : Option String :=
  ((spaces_backends.find? (fun p => p.1 == backend)).map (fun p => p.2))

/-- JSON serialization of one parameter row (`json.dumps(_params)`, line 75). -/
def serializeValue : Value → String
  | .str s => "\"" ++ s ++ "\""
  | .nat n => toString n

def serializeRecord (r : Record) : String :=
  "\x7b" ++ String.intercalate ", "
    (r.map (fun p => "\"" ++ p.1 ++ "\": " ++ serializeValue p.2)) ++ "\x7d"

/-- The repo id for job row `i` (line 64):
`f"{self.username}/autotrain-{self.project_name}-{job_idx}"`. -/
def repoIdOf (p : ATState) (i : Nat) : String :=
  p.username ++ "/autotrain-" ++ p.projectName ++ "-" ++ toString i

/-- The README manifest uploaded to each Space (lines 79-88). -/
def spaceReadme (p : ATState) (i : Nat) : String :=
  "---\n" ++ "title: " ++ p.projectName ++ "-" ++ toString i ++ "\n" ++
  "emoji: 🚀\n" ++ "colorFrom: green\n" ++ "colorTo: indigo\n" ++
  "sdk: docker\n" ++ "pinned: false\n" ++
  "duplicated_from: autotrain-projects/autotrain-advanced\n" ++ "---\n"

/-- The entrypoint descriptor uploaded to each Space (line 96). -/
def spaceDockerfile : String :=
  "FROM huggingface/autotrain-advanced:latest\nCMD autotrain api --port 7860"

/-- One iteration of the `create_spaces` loop (lines 60-103) for row `i` with
parameters `params`, once the hardware tier `hw` resolved: repo creation, the
six secrets, and the two artifact uploads, in source order. -/
def spaceRowActions (p : ATState) (hw : String) (i : Nat) (params : Record) :
    List SpaceAction :=
  [.createRepo (repoIdOf p i) "space" "docker" hw true,
   .addSecret (repoIdOf p i) "HF_TOKEN" p.token,
   .addSecret (repoIdOf p i) "AUTOTRAIN_USERNAME" p.username,
   .addSecret (repoIdOf p i) "PROJECT_NAME" p.projectName,
   .addSecret (repoIdOf p i) "PARAMS" (serializeRecord params),
   .addSecret (repoIdOf p i) "DATA_PATH" (dataPath p),
   .addSecret (repoIdOf p i) "TASK_ID" (pyStrOptNat p.taskId),
   .uploadFile (repoIdOf p i) "README.md" (spaceReadme p i),
   .uploadFile (repoIdOf p i) "Dockerfile" spaceDockerfile]

/-- The `for job_idx in range(self.num_jobs)` loop of `create_spaces`. -/
def spacesLoop (p : ATState) (hw : String) (i : Nat) :
    List Record → List SpaceAction
  | [] => []
  | r :: rs => spaceRowActions p hw i r ++ spacesLoop p hw (i + 1) rs

/-- `AutoTrainProject.create_spaces` (lines 58-103): raises `KeyError` on the
first iteration if the backend has no hardware tier, otherwise emits the
per-row action blocks. -/
def create_spaces (p : ATState) : Except PyErr (List SpaceAction) :=
  match lookupBackend p.backend with
  | none => if p.jobParams.isEmpty then .ok [] else .error .keyError
  | some hw => .ok (spacesLoop p hw 0 p.jobParams)

/-- `AutoTrainProject.create` (lines 105-111): `NotImplementedError` for the
"AutoTrain" and "Local" named backends, the Spaces path for the five
accelerator tiers, and a plain `None` return (no action at all) otherwise. -/
def atCreate (p : ATState) : Except PyErr (Option (List SpaceAction)) :=
  if p.backend == "AutoTrain" then .error .notImplemented
  else if p.backend == "Local" then .error .notImplemented
  else if (lookupBackend p.backend).isSome then
    (create_spaces p).map some
  else .ok none

/-- Bool classifiers over `SpaceAction`, used to count calls per kind. -/
def isCreateRepo : SpaceAction → Bool
  | .createRepo _ _ _ _ _ => true
  | _ => false

def isAddSecret : SpaceAction → Bool
  | .addSecret _ _ _ => true
  | _ => false

def isUploadFile : SpaceAction → Bool
  | .uploadFile _ _ _ => true
  | _ => false

def isHttpPost : SpaceAction → Bool
  | .httpPost _ => true
  | _ => false

/-! ### Concrete fixtures used by witnesses and counterexamples -/

/-- Trainer stubs that always return normally. -/
def okTrainers : Trainers :=
  { textClassification := fun _ => .ok (), imageClassification := fun _ => .ok (),
    dreambooth := fun _ => .ok (), lmTrainer := fun _ => .ok () }

/-- A single-record text-classification payload (task id 1). -/
def textPayload : Payload :=
  { username := "user", projName := "proj", task := 1, advanced := true,
    autotrain := true, language := "en", maxModels := .nat 1,
    hubModel := none, params := [[("lr", .str "3e-5")]] }

/-- A payload carrying two parameter records. -/
def twoRecordPayload : Payload :=
  { textPayload with params := [[], []] }

/-- A lock-free local filesystem state. -/
def freshLocalState : LocalState := { lockExists := false, dirs := [], trainerCalls := [] }

/-- A state in which the `/tmp/training` lock marker already exists. -/
def busyLocalState : LocalState := { lockExists := true, dirs := [], trainerCalls := [] }

/-- Trainer stubs whose text-classification entry point raises. -/
def boomTrainers : Trainers :=
  { okTrainers with textClassification := fun _ => .error (.valueError "trainer failed") }

/-- The `TASKS` registry restricted to the one task the witnesses use. -/
def sampleTasks : String → Option Nat := fun t =>
  if t == "text_multi_class_classification" then some 1 else none

/-- A normalized project state as `__post_init__` would leave it. -/
def sampleState : ProjectState :=
  { token := "hf_token", name := "proj", username := "user",
    task := "text_multi_class_classification", paramChoice := "autotrain",
    hubModel := none, jobParams := [[("lr", .str "3e-5")]],
    language := .str "en", maxModels := some (.nat 5) }

/-- A one-row project on the "A10G Large" accelerator tier. -/
def sampleATState : ATState :=
  { token := "hf_token", projectName := "proj", username := "user", taskId := some 1,
    backend := "A10G Large", jobParams := [[("lr", .str "3e-5")]] }

/-! ### Record-key lemmas -/

theorem hasKey_popKey_self (r : Record) (k : String) : hasKey (popKey r k) k = false := by
  simp [hasKey, popKey, List.any_eq_true, List.mem_filter]

theorem hasKey_popKey_ne (r : Record) (k k2 : String) (h : k2 ≠ k) :
    hasKey (popKey r k) k2 = hasKey r k2 := by
  rw [Bool.eq_iff_iff]
  simp only [hasKey, popKey, List.any_eq_true, List.mem_filter, beq_iff_eq]
  constructor
  · rintro ⟨x, ⟨hx, -⟩, hk⟩; exact ⟨x, hx, hk⟩
  · rintro ⟨x, hx, hk⟩
    exact ⟨x, ⟨hx, by simp [hk, h]⟩, hk⟩

theorem getKey_popKey_ne (r : Record) (k k2 : String) (h : k2 ≠ k) :
    getKey (popKey r k) k2 = getKey r k2 := by
  induction r with
  | nil => rfl
  | cons p rs ih =>
    unfold getKey popKey at ih ⊢
    rw [List.filter_cons]
    by_cases hp : (p.1 == k) = true
    · have hp2 : (p.1 == k2) = false := by
        rw [beq_iff_eq] at hp
        rw [beq_eq_false_iff_ne, hp]
        exact fun hh => h hh.symm
      simp only [hp, Bool.not_true, Bool.false_eq_true, if_false]
      rw [List.find?_cons]
      simp only [hp2]
      exact ih
    · rw [Bool.not_eq_true] at hp
      simp only [hp, Bool.not_false, if_true]
      rw [List.find?_cons, List.find?_cons]
      by_cases hp2 : (p.1 == k2) = true
      · simp only [hp2]
      · rw [Bool.not_eq_true] at hp2
        simp only [hp2]
        exact ih

theorem hasKey_of_getKey (r : Record) (k : String) (v : Value) (h : getKey r k = some v) :
    hasKey r k = true := by
  unfold getKey at h
  rw [Option.map_eq_some'] at h
  obtain ⟨p, hp, -⟩ := h
  unfold hasKey
  rw [List.any_eq_true]
  refine ⟨p, List.mem_of_find?_eq_some hp, ?_⟩
  exact @List.find?_some _ (fun q => q.1 == k) p r hp

theorem pyLower_autotrain : pyLower "autotrain" = "autotrain" := by decide

/-- The duplicate-project message can never coincide with the unsupported
language message, whatever the project name. -/
theorem projectExistsMsg_ne_invalidLanguageMsg (n : String) :
    projectExistsMsg n ≠ invalidLanguageMsg := by
  intro h
  have h2 := congrArg String.data h
  simp [projectExistsMsg, invalidLanguageMsg, String.data_append] at h2

/-- C10: in AutoTrain mode with no effective hub-model override and an empty
job-parameter sequence, `__post_init__` passes the stated ConfigurationError
checks and then unconditionally subscripts `job_params[0]`, raising
`IndexError` rather than a `ValueError`. -/
theorem c10_empty_params_index_error (t pname uname task : String)
    (hub : Option String) (jp : Option (List Record))
    (hhub : effectiveHubModel hub = none) (hjp : jp.getD [] = []) :
    postInit { token := some t, projectName := pname, username := uname, task := task,
               paramChoice := "autotrain", hubModel := hub, jobParams := jp } =
      .error .indexError := by
  simp only [postInit, hhub, hjp, pyLower_autotrain]
  simp

/-- Witness for C10 at a concrete input (`job_params` left `None`, which
defaults to the empty sequence). -/
theorem c10_witness :
    postInit { token := some "hf_token", projectName := "proj", username := "user",
               task := "text_multi_class_classification",
               paramChoice := "autotrain", hubModel := none, jobParams := none } =
      .error .indexError :=
  c10_empty_params_index_error "hf_token" "proj" "user"
    "text_multi_class_classification" none none rfl rfl

/-- C5: `__post_init__` raises a `ValueError` (the spec's ConfigurationError)
when no authentication token is on the dataset, when an (effective) hub-model
override is present and the job-parameter sequence is empty, and when no
override is present and the sequence has more than one record. -/
theorem c5_postInit_validation_errors :
    (∀ inp : ProjectInput, inp.token = none →
        postInit inp = .error (.valueError loginMsg))
  ∧ (∀ (inp : ProjectInput) (t : String), inp.token = some t →
        (effectiveHubModel inp.hubModel).isSome = true →
        (inp.jobParams.getD []).length = 0 →
        postInit inp = .error (.valueError hubNeedsParamsMsg))
  ∧ (∀ (inp : ProjectInput) (t : String), inp.token = some t →
        effectiveHubModel inp.hubModel = none →
        (inp.jobParams.getD []).length > 1 →
        postInit inp = .error (.valueError onlyOneJobMsg)) := by
  refine ⟨?_, ?_, ?_⟩
  · intro inp h
    simp only [postInit, h]
  · intro inp t h hhub hlen
    simp only [postInit, h, hhub, hlen]
    simp
  · intro inp t h hhub hlen
    simp only [postInit, h, hhub]
    simp [decide_eq_true hlen]

/-- Witness for C5: the three errors observed at concrete inputs. -/
theorem c5_witness :
    postInit { token := none, projectName := "proj", username := "user",
               task := "tc", paramChoice := "autotrain", hubModel := none,
               jobParams := none } = .error (.valueError loginMsg)
  ∧ postInit (mkInput (some "bert-base-uncased") (some [])) =
      .error (.valueError hubNeedsParamsMsg)
  ∧ postInit (mkInput none (some [[], []])) = .error (.valueError onlyOneJobMsg) :=
  ⟨c5_postInit_validation_errors.1 _ rfl,
   c5_postInit_validation_errors.2.1 _ "hf_token" rfl rfl rfl,
   c5_postInit_validation_errors.2.2 _ "hf_token" rfl rfl (by decide)⟩

/-- C7: if the workspace lock marker exists, `create_local` fails immediately
with the workspace-busy `ValueError` leaving the filesystem state untouched
(so no trainer dispatch, no directory creation, no lock write); and with more
than one parameter record it fails with the single-job `ValueError`, likewise
before any trainer dispatch. -/
theorem c7_create_local_guards :
    (∀ (tr : Trainers) (payload : Payload) (s : LocalState),
        s.lockExists = true →
        create_local tr payload s = (.error (.valueError anotherJobMsg), s))
  ∧ (∀ (tr : Trainers) (payload : Payload) (s : LocalState),
        s.lockExists = false → payload.params.length > 1 →
        create_local tr payload s = (.error (.valueError onlyOneLocalMsg), s)) := by
  constructor
  · intro tr payload s h
    simp only [create_local, h]
    simp
  · intro tr payload s h h2
    simp only [create_local, h]
    simp [decide_eq_true h2]

/-- Witness for C7 at concrete inputs. -/
theorem c7_witness :
    create_local okTrainers textPayload busyLocalState =
      (.error (.valueError anotherJobMsg), busyLocalState)
  ∧ create_local okTrainers twoRecordPayload freshLocalState =
      (.error (.valueError onlyOneLocalMsg), freshLocalState) :=
  ⟨c7_create_local_guards.1 okTrainers textPayload busyLocalState rfl,
   c7_create_local_guards.2 okTrainers twoRecordPayload freshLocalState rfl (by decide)⟩

/-- C1 (code bug): when the dispatched trainer raises, `create_local`
propagates the error but the `/tmp/training` lock marker is still present
afterwards — `os.remove` at line 227 only runs on the success path — whereas
a successful run does remove it. -/
theorem c1_lock_leaked_on_trainer_failure :
    (create_local boomTrainers textPayload freshLocalState).1 =
      .error (.valueError "trainer failed")
  ∧ ((create_local boomTrainers textPayload freshLocalState).2).trainerCalls = [1]
  ∧ ((create_local boomTrainers textPayload freshLocalState).2).lockExists = true
  ∧ ((create_local okTrainers textPayload freshLocalState).2).lockExists = false := by
  refine ⟨rfl, rfl, rfl, rfl⟩

/-- C6: on the default remote submission path (`local=False`), once the task
id resolves, the language check passes and `self.max_models` was assigned
(so the payload dict can be built without an `AttributeError` at line 253),
the `created` flag of the remote response decides the outcome: `true` returns
the new project id, `false` raises the duplicate-project `ValueError` naming
the conflicting project. -/
theorem c6_remote_created_flag
    (tasks : String → Option Nat) (supported : List String) (st : ProjectState)
    (resp : CreateResponse) (tid : Nat) (mm : Value)
    (htask : tasks st.task = some tid)
    (hlang : supported.contains (submissionLanguage st) = true)
    (hmm : st.maxModels = some mm) :
    (resp.created = true →
      create tasks supported st false resp = .ok (.projId resp.id))
  ∧ (resp.created = false →
      create tasks supported st false resp =
        .error (.valueError (projectExistsMsg resp.projName))) := by
  constructor <;> intro h <;>
    simp only [create, htask, hlang, Bool.not_true, Bool.false_eq_true, if_false,
      Bool.true_eq_false, hmm, h, if_true]

/-- Witness for C6: a first submission (`created=true`) returns the id, and a
resubmission of the same payload stubbed with `created=false` surfaces the
duplicate-project error naming the project. -/
theorem c6_witness :
    create sampleTasks ["en", "unk"] sampleState false
      { projName := "proj", id := 42, created := true } = .ok (.projId 42)
  ∧ create sampleTasks ["en", "unk"] sampleState false
      { projName := "proj", id := 42, created := false } =
        .error (.valueError (projectExistsMsg "proj")) :=
  ⟨(c6_remote_created_flag sampleTasks ["en", "unk"] sampleState
      { projName := "proj", id := 42, created := true } 1 (.nat 5) rfl (by decide) rfl).1 rfl,
   (c6_remote_created_flag sampleTasks ["en", "unk"] sampleState
      { projName := "proj", id := 42, created := false } 1 (.nat 5) rfl (by decide) rfl).2 rfl⟩

/-- C9: at submission time the stripped and lowercased language tag must be a
supported language, else `create` raises the invalid-language `ValueError`;
and whenever a hub-model override is present the submitted tag is forced to
"unk", which the supported set contains, so `create` can never fail the
language check with an override present. -/
theorem c9_language_validation
    (tasks : String → Option Nat) (supported : List String) (st : ProjectState)
    (isLoc : Bool) (resp : CreateResponse) (tid : Nat)
    (htask : tasks st.task = some tid) :
    (st.hubModel = none →
      supported.contains (pyLower (pyStrip (valueStr st.language))) = false →
      create tasks supported st isLoc resp = .error (.valueError invalidLanguageMsg))
  ∧ (st.hubModel.isSome = true → supported.contains "unk" = true →
      create tasks supported st isLoc resp ≠ .error (.valueError invalidLanguageMsg)) := by
  constructor
  · intro hnone hlang
    simp only [create, htask, submissionLanguage, hnone, Option.isSome_none,
      Bool.false_eq_true, if_false, hlang, Bool.not_false, if_true]
  · intro hsome hunk
    simp only [create, htask, submissionLanguage, hsome, if_true, hunk]
    simp only [Bool.not_true, Bool.false_eq_true, if_false]
    rcases hmm : st.maxModels with _ | mm
    · simp only [hmm]
      intro h
      exact PyErr.noConfusion (Except.error.inj h)
    · simp only [hmm]
      by_cases hl : isLoc
      · simp [hl]
      · simp only [hl, if_false]
        by_cases hc : resp.created
        · simp [hc]
        · simp only [hc, Bool.false_eq_true, if_false]
          intro h
          exact projectExistsMsg_ne_invalidLanguageMsg resp.projName
            (PyErr.valueError.inj (Except.error.inj h))

/-- Witness for C9: with no override, the unsupported tag "xx" is rejected;
with an override present, the same state is accepted past the language check. -/
theorem c9_witness :
    create sampleTasks ["en", "unk"] { sampleState with language := .str "xx" } false
      { projName := "proj", id := 42, created := true } =
        .error (.valueError invalidLanguageMsg)
  ∧ create sampleTasks ["en", "unk"]
      { sampleState with language := .str "xx", hubModel := some "bert-base-uncased" } false
      { projName := "proj", id := 42, created := true } ≠
        .error (.valueError invalidLanguageMsg) :=
  ⟨(c9_language_validation sampleTasks ["en", "unk"]
      { sampleState with language := .str "xx" } false
      { projName := "proj", id := 42, created := true } 1 rfl).1 rfl (by decide),
   (c9_language_validation sampleTasks ["en", "unk"]
      { sampleState with language := .str "xx", hubModel := some "bert-base-uncased" } false
      { projName := "proj", id := 42, created := true } 1 rfl).2 rfl (by decide)⟩

/-- The poll loop consumes every non-3 status with one poll each and stops on
the first status 3. -/
theorem pollLoop_first_three (pre rest : List Nat) (h : ∀ s ∈ pre, s ≠ 3) :
    pollLoop (pre ++ 3 :: rest) = some (List.replicate (pre.length + 1) .poll) := by
  induction pre with
  | nil => simp [pollLoop]
  | cons a as ih =>
    have ha : (a == 3) = false := by
      rw [beq_eq_false_iff_ne]
      exact h a (List.mem_cons_self a as)
    have h2 : ∀ s ∈ as, s ≠ 3 := fun s hs => h s (List.mem_cons_of_mem _ hs)
    rw [List.cons_append,
      show pollLoop (a :: (as ++ 3 :: rest)) =
          (pollLoop (as ++ 3 :: rest)).map (fun es => .poll :: es) from by
        simp [pollLoop, ha],
      ih h2]
    simp [List.replicate_succ]

/-- C3: for any run of non-3 statuses followed by a 3, `approve` issues one
start-processing request first, then one poll per status while the status is
not 3, leaves the poll loop exactly on the poll that observes 3, and finally
issues exactly one start-training request. -/
theorem c3_approve_state_machine (pre rest : List Nat) (h : ∀ s ∈ pre, s ≠ 3) :
    approve (pre ++ 3 :: rest) =
      some (.startProcessing ::
        (List.replicate (pre.length + 1) .poll ++ [.startTraining])) := by
  rw [approve, pollLoop_first_three pre rest h, Option.map_some']

/-- Witness for C3: with statuses 2, 2, 2, 3 the start-training request is
issued exactly once, after the fourth poll. -/
theorem c3_witness :
    approve [2, 2, 2, 3] =
      some [.startProcessing, .poll, .poll, .poll, .poll, .startTraining] := by
  have h := c3_approve_state_machine [2, 2, 2] [] (by decide)
  simpa [List.replicate_succ] using h

/-- Once the three validation checks pass (params nonempty; an override
present or a single record), `__post_init__` in autotrain mode reduces to the
language-extraction and model-count steps on the first record. -/
theorem postInit_autotrain_branch (t pname uname task : String) (hub : Option String)
    (r0 : Record) (rest : List Record)
    (hok : (effectiveHubModel hub).isSome = true ∨ rest = []) :
    postInit { token := some t, projectName := pname, username := uname, task := task,
               paramChoice := "autotrain", hubModel := hub, jobParams := some (r0 :: rest) } =
      (let langStep : Value × Record :=
        if hasKey r0 "source_language" && !(hasKey r0 "target_language") then
          ((getKey r0 "source_language").getD (.str ""), popKey r0 "source_language")
        else if hasKey r0 "source_language" && hasKey r0 "target_language" then
          (.str (valueStr ((getKey r0 "target_language").getD (.str "")) ++ "2" ++
                 valueStr ((getKey r0 "source_language").getD (.str ""))),
           popKey (popKey r0 "source_language") "target_language")
        else
          (.str "unk", r0)
      if hasKey langStep.2 "num_models" then
        .ok { token := t, name := pname, username := uname, task := task,
              paramChoice := "autotrain", hubModel := effectiveHubModel hub,
              jobParams := popKey langStep.2 "num_models" :: rest,
              language := langStep.1, maxModels := getKey langStep.2 "num_models" }
      else if !(hasKey langStep.2 "num_models") && hasKey langStep.2 "source_language" then
        .error (.valueError numModelsMsg)
      else
        .ok { token := t, name := pname, username := uname, task := task,
              paramChoice := "autotrain", hubModel := effectiveHubModel hub,
              jobParams := langStep.2 :: rest,
              language := langStep.1, maxModels := none }) := by
  have hlen0 : ((r0 :: rest).length == 0) = false := by simp
  rcases hok with hs | hrest
  · have hn : (effectiveHubModel hub).isNone = false := by
      rcases Option.isSome_iff_exists.mp hs with ⟨v, hv⟩
      rw [hv]
      rfl
    simp only [postInit, pyLower_autotrain, Option.getD_some, hlen0, Bool.and_false,
      Bool.false_eq_true, if_false, hn, Bool.false_and, beq_self_eq_true, if_true]
  · subst hrest
    have hgt : decide ((r0 :: ([] : List Record)).length > 1) = false := by simp
    simp only [postInit, pyLower_autotrain, Option.getD_some, hlen0, Bool.and_false,
      Bool.false_eq_true, if_false, hgt, beq_self_eq_true, if_true]

/-- C2 (code bug): in AutoTrain mode, a record carrying `source_language` but
no `num_models` does NOT raise the mandated `ValueError`: the language step
already popped `source_language` from the record, so the guard
`"num_models" not in params and "source_language" in params` at line 167 can
never be true and `__post_init__` returns normally, with `max_models` never
assigned. -/
theorem c2_num_models_check_dead (t pname uname task : String) (hub : Option String)
    (r0 : Record) (x : Value)
    (hhub : effectiveHubModel hub = none)
    (hsrc : getKey r0 "source_language" = some x)
    (htgt : hasKey r0 "target_language" = false)
    (hnum : hasKey r0 "num_models" = false) :
    ∃ st,
      postInit { token := some t, projectName := pname, username := uname, task := task,
                 paramChoice := "autotrain", hubModel := hub, jobParams := some [r0] } =
        .ok st ∧ st.maxModels = none ∧ st.language = x := by
  have hks : hasKey r0 "source_language" = true := hasKey_of_getKey _ _ _ hsrc
  have hnum2 : hasKey (popKey r0 "source_language") "num_models" = false := by
    rw [hasKey_popKey_ne _ _ _ (by decide)]
    exact hnum
  have hsrc2 : hasKey (popKey r0 "source_language") "source_language" = false :=
    hasKey_popKey_self _ _
  rw [postInit_autotrain_branch t pname uname task hub r0 [] (Or.inr rfl)]
  simp only [hks, htgt, Bool.not_false, Bool.and_true, if_true, hnum2, hsrc2,
    Bool.not_true, Bool.false_eq_true, if_false, Bool.false_and, hsrc, Option.getD_some]
  exact ⟨_, rfl, rfl, rfl⟩

/-- Shows C2's failing input concretely: the record has `source_language` and
no `num_models`, yet `__post_init__` succeeds instead of raising. -/
theorem c2_witness :
    ∃ st, postInit (mkInput none (some [[("source_language", .str "en")]])) = .ok st ∧
      st.maxModels = none ∧ st.language = .str "en" :=
  c2_num_models_check_dead "hf_token" "proj" "user" "text_multi_class_classification"
    none [("source_language", .str "en")] (.str "en") rfl rfl rfl rfl

/-- C4: in AutoTrain mode (with an override present or a single record, so
validation passes), a first record with `source_language=X`, `num_models=N`
and no `target_language` normalizes to `language = X`, `max_models = N`, with
both keys removed from the record; with both `source_language=X` and
`target_language=Y` the language becomes `"Y2X"` and both language keys are
removed; with neither language key the language is `"unk"`. -/
theorem c4_autotrain_language_normalization :
    (∀ (t pname uname task : String) (hub : Option String) (r0 : Record)
        (rest : List Record) (x n : Value),
      (effectiveHubModel hub).isSome = true ∨ rest = [] →
      getKey r0 "source_language" = some x →
      hasKey r0 "target_language" = false →
      getKey r0 "num_models" = some n →
      ∃ st,
        postInit { token := some t, projectName := pname, username := uname, task := task,
                   paramChoice := "autotrain", hubModel := hub,
                   jobParams := some (r0 :: rest) } = .ok st ∧
        st.language = x ∧ st.maxModels = some n ∧
        hasKey (st.jobParams.headD []) "source_language" = false ∧
        hasKey (st.jobParams.headD []) "num_models" = false)
  ∧ (∀ (t pname uname task : String) (hub : Option String) (r0 : Record)
        (rest : List Record) (x y : Value),
      (effectiveHubModel hub).isSome = true ∨ rest = [] →
      getKey r0 "source_language" = some x →
      getKey r0 "target_language" = some y →
      ∃ st,
        postInit { token := some t, projectName := pname, username := uname, task := task,
                   paramChoice := "autotrain", hubModel := hub,
                   jobParams := some (r0 :: rest) } = .ok st ∧
        st.language = .str (valueStr y ++ "2" ++ valueStr x) ∧
        hasKey (st.jobParams.headD []) "source_language" = false ∧
        hasKey (st.jobParams.headD []) "target_language" = false)
  ∧ (∀ (t pname uname task : String) (hub : Option String) (r0 : Record)
        (rest : List Record),
      (effectiveHubModel hub).isSome = true ∨ rest = [] →
      hasKey r0 "source_language" = false →
      hasKey r0 "target_language" = false →
      ∃ st,
        postInit { token := some t, projectName := pname, username := uname, task := task,
                   paramChoice := "autotrain", hubModel := hub,
                   jobParams := some (r0 :: rest) } = .ok st ∧
        st.language = .str "unk") := by
  refine ⟨?_, ?_, ?_⟩
  · intro t pname uname task hub r0 rest x n hok hsrc htgt hnum
    have hks : hasKey r0 "source_language" = true := hasKey_of_getKey _ _ _ hsrc
    have hkn1 : hasKey (popKey r0 "source_language") "num_models" = true := by
      rw [hasKey_popKey_ne _ _ _ (by decide)]
      exact hasKey_of_getKey _ _ _ hnum
    have hgn1 : getKey (popKey r0 "source_language") "num_models" = some n := by
      rw [getKey_popKey_ne _ _ _ (by decide)]
      exact hnum
    rw [postInit_autotrain_branch t pname uname task hub r0 rest hok]
    simp only [hks, htgt, Bool.not_false, Bool.and_true, if_true, hkn1, hgn1, hsrc,
      Option.getD_some]
    refine ⟨_, rfl, rfl, rfl, ?_, ?_⟩
    · simp only [List.headD_cons]
      rw [hasKey_popKey_ne _ _ _ (by decide)]
      exact hasKey_popKey_self _ _
    · simp only [List.headD_cons]
      exact hasKey_popKey_self _ _
  · intro t pname uname task hub r0 rest x y hok hsrc htgt
    have hks : hasKey r0 "source_language" = true := hasKey_of_getKey _ _ _ hsrc
    have hkt : hasKey r0 "target_language" = true := hasKey_of_getKey _ _ _ htgt
    have hs1 : hasKey (popKey (popKey r0 "source_language") "target_language")
        "source_language" = false := by
      rw [hasKey_popKey_ne _ _ _ (by decide)]
      exact hasKey_popKey_self _ _
    have ht1 : hasKey (popKey (popKey r0 "source_language") "target_language")
        "target_language" = false := hasKey_popKey_self _ _
    rw [postInit_autotrain_branch t pname uname task hub r0 rest hok]
    simp only [hks, hkt, Bool.not_true, Bool.and_false, Bool.false_eq_true, if_false,
      Bool.and_true, Bool.and_self, if_true, hsrc, htgt, Option.getD_some]
    by_cases hnum : hasKey (popKey (popKey r0 "source_language") "target_language")
        "num_models" = true
    · simp only [hnum, if_true]
      refine ⟨_, rfl, rfl, ?_, ?_⟩
      · simp only [List.headD_cons]
        rw [hasKey_popKey_ne _ _ _ (by decide)]
        exact hs1
      · simp only [List.headD_cons]
        rw [hasKey_popKey_ne _ _ _ (by decide)]
        exact ht1
    · rw [Bool.not_eq_true] at hnum
      simp only [hnum, Bool.false_eq_true, if_false, Bool.not_false, Bool.true_and, hs1]
      refine ⟨_, rfl, rfl, ?_, ?_⟩
      · simp only [List.headD_cons]
        exact hs1
      · simp only [List.headD_cons]
        exact ht1
  · intro t pname uname task hub r0 rest hok hsrc htgt
    rw [postInit_autotrain_branch t pname uname task hub r0 rest hok]
    simp only [hsrc, htgt, Bool.false_and, Bool.false_eq_true, if_false]
    by_cases hnum : hasKey r0 "num_models" = true
    · simp only [hnum, if_true]
      exact ⟨_, rfl, rfl⟩
    · rw [Bool.not_eq_true] at hnum
      simp only [hnum, Bool.false_eq_true, if_false, Bool.not_false, Bool.true_and, hsrc]
      exact ⟨_, rfl, rfl⟩

/-- Witness for C4: the three normalization outcomes at concrete records. -/
theorem c4_witness :
    (∃ st,
      postInit { token := some "hf_token", projectName := "proj", username := "user",
                 task := "tc", paramChoice := "autotrain", hubModel := none,
                 jobParams := some [[("source_language", .str "en"),
                                     ("num_models", .nat 5)]] } = .ok st ∧
        st.language = .str "en" ∧ st.maxModels = some (.nat 5) ∧
        hasKey (st.jobParams.headD []) "source_language" = false ∧
        hasKey (st.jobParams.headD []) "num_models" = false)
  ∧ (∃ st,
      postInit { token := some "hf_token", projectName := "proj", username := "user",
                 task := "tc", paramChoice := "autotrain", hubModel := none,
                 jobParams := some [[("source_language", .str "en"),
                                     ("target_language", .str "fr")]] } = .ok st ∧
        st.language = .str (valueStr (.str "fr") ++ "2" ++ valueStr (.str "en")) ∧
        hasKey (st.jobParams.headD []) "source_language" = false ∧
        hasKey (st.jobParams.headD []) "target_language" = false)
  ∧ (∃ st,
      postInit { token := some "hf_token", projectName := "proj", username := "user",
                 task := "tc", paramChoice := "autotrain", hubModel := none,
                 jobParams := some [[("lr", .str "3e-5")]] } = .ok st ∧
        st.language = .str "unk") :=
  ⟨c4_autotrain_language_normalization.1 "hf_token" "proj" "user" "tc" none
      [("source_language", .str "en"), ("num_models", .nat 5)] [] (.str "en") (.nat 5)
      (Or.inr rfl) rfl rfl rfl,
   c4_autotrain_language_normalization.2.1 "hf_token" "proj" "user" "tc" none
      [("source_language", .str "en"), ("target_language", .str "fr")] []
      (.str "en") (.str "fr") (Or.inr rfl) rfl rfl,
   c4_autotrain_language_normalization.2.2 "hf_token" "proj" "user" "tc" none
      [("lr", .str "3e-5")] [] (Or.inr rfl) rfl rfl⟩

theorem countP_spaceRowActions_createRepo (p : ATState) (hw : String) (i : Nat)
    (r : Record) : (spaceRowActions p hw i r).countP isCreateRepo = 1 := by
  simp [spaceRowActions, List.countP_cons, isCreateRepo]

theorem countP_spaceRowActions_addSecret (p : ATState) (hw : String) (i : Nat)
    (r : Record) : (spaceRowActions p hw i r).countP isAddSecret = 6 := by
  simp [spaceRowActions, List.countP_cons, isAddSecret]

theorem countP_spaceRowActions_uploadFile (p : ATState) (hw : String) (i : Nat)
    (r : Record) : (spaceRowActions p hw i r).countP isUploadFile = 2 := by
  simp [spaceRowActions, List.countP_cons, isUploadFile]

theorem countP_spaceRowActions_httpPost (p : ATState) (hw : String) (i : Nat)
    (r : Record) : (spaceRowActions p hw i r).countP isHttpPost = 0 := by
  simp [spaceRowActions, List.countP_cons, isHttpPost]

theorem countP_spacesLoop (p : ATState) (hw : String) (f : SpaceAction → Bool) (c : Nat)
    (hc : ∀ i r, (spaceRowActions p hw i r).countP f = c) :
    ∀ (i : Nat) (rs : List Record), (spacesLoop p hw i rs).countP f = c * rs.length := by
  intro i rs
  induction rs generalizing i with
  | nil => simp [spacesLoop]
  | cons r rs ih =>
    simp only [spacesLoop, List.countP_append, hc, ih, List.length_cons]
    ring

/-- Every action of row `i` of the loop body appears in the loop output. -/
theorem mem_spacesLoop_of_mem_row (p : ATState) (hw : String) (x : SpaceAction) :
    ∀ (j i : Nat) (rs : List Record) (r : Record), rs.get? i = some r →
      x ∈ spaceRowActions p hw (j + i) r → x ∈ spacesLoop p hw j rs := by
  intro j i rs
  induction rs generalizing j i with
  | nil => intro r h; simp at h
  | cons r0 rs ih =>
    intro r h hx
    cases i with
    | zero =>
      simp only [List.get?_cons_zero, Option.some_inj] at h
      subst h
      simp only [spacesLoop, List.mem_append]
      exact Or.inl (by simpa using hx)
    | succ i2 =>
      simp only [List.get?_cons_succ] at h
      simp only [spacesLoop, List.mem_append]
      refine Or.inr (ih (j + 1) i2 r h ?_)
      have : j + 1 + i2 = j + (i2 + 1) := by omega
      rw [this]
      exact hx

/-- Conversely, every action the loop emits belongs to the block of one of
the rows. -/
theorem mem_row_of_mem_spacesLoop (p : ATState) (hw : String) (x : SpaceAction) :
    ∀ (j : Nat) (rs : List Record), x ∈ spacesLoop p hw j rs →
      ∃ i r, rs.get? i = some r ∧ x ∈ spaceRowActions p hw (j + i) r := by
  intro j rs
  induction rs generalizing j with
  | nil => intro h; simp [spacesLoop] at h
  | cons r0 rs ih =>
    intro h
    simp only [spacesLoop, List.mem_append] at h
    rcases h with h | h
    · exact ⟨0, r0, rfl, by simpa using h⟩
    · obtain ⟨i, r, hget, hmem⟩ := ih (j + 1) h
      refine ⟨i + 1, r, by simpa using hget, ?_⟩
      have : j + (i + 1) = j + 1 + i := by omega
      rw [this]
      exact hmem

theorem backend_checks_of_lookup (p : ATState) (hw : String)
    (h : lookupBackend p.backend = some hw) :
    (p.backend == "AutoTrain") = false ∧ (p.backend == "Local") = false := by
  constructor <;>
    · rw [beq_eq_false_iff_ne]
      intro hb
      rw [hb] at h
      simp [lookupBackend, spaces_backends] at h

/-- C8: for a backend mapped to one of the five accelerator tiers, `create`
routes to `create_spaces` and never to the default remote job endpoint: per
parameter row exactly one private docker Space on the mapped hardware is
created, exactly six secrets are injected (token, username, project name,
serialized row parameters, the `{username}/autotrain-data-{project}` data
path, and the stringified task id), and exactly two artifacts (README
manifest and Dockerfile entrypoint) are uploaded; every emitted action
belongs to such a row block. -/
theorem c8_spaces_provisioning (p : ATState) (hw : String)
    (h : lookupBackend p.backend = some hw) :
    ∃ acts, atCreate p = .ok (some acts)
      ∧ acts.countP isCreateRepo = p.jobParams.length
      ∧ acts.countP isAddSecret = 6 * p.jobParams.length
      ∧ acts.countP isUploadFile = 2 * p.jobParams.length
      ∧ acts.countP isHttpPost = 0
      ∧ (∀ (i : Nat) (r : Record), p.jobParams.get? i = some r →
           SpaceAction.createRepo (repoIdOf p i) "space" "docker" hw true ∈ acts ∧
           SpaceAction.addSecret (repoIdOf p i) "HF_TOKEN" p.token ∈ acts ∧
           SpaceAction.addSecret (repoIdOf p i) "AUTOTRAIN_USERNAME" p.username ∈ acts ∧
           SpaceAction.addSecret (repoIdOf p i) "PROJECT_NAME" p.projectName ∈ acts ∧
           SpaceAction.addSecret (repoIdOf p i) "PARAMS" (serializeRecord r) ∈ acts ∧
           SpaceAction.addSecret (repoIdOf p i) "DATA_PATH" (dataPath p) ∈ acts ∧
           SpaceAction.addSecret (repoIdOf p i) "TASK_ID" (pyStrOptNat p.taskId) ∈ acts ∧
           SpaceAction.uploadFile (repoIdOf p i) "README.md" (spaceReadme p i) ∈ acts ∧
           SpaceAction.uploadFile (repoIdOf p i) "Dockerfile" spaceDockerfile ∈ acts)
      ∧ (∀ a ∈ acts, ∃ i r, p.jobParams.get? i = some r ∧
           a ∈ [SpaceAction.createRepo (repoIdOf p i) "space" "docker" hw true,
                SpaceAction.addSecret (repoIdOf p i) "HF_TOKEN" p.token,
                SpaceAction.addSecret (repoIdOf p i) "AUTOTRAIN_USERNAME" p.username,
                SpaceAction.addSecret (repoIdOf p i) "PROJECT_NAME" p.projectName,
                SpaceAction.addSecret (repoIdOf p i) "PARAMS" (serializeRecord r),
                SpaceAction.addSecret (repoIdOf p i) "DATA_PATH" (dataPath p),
                SpaceAction.addSecret (repoIdOf p i) "TASK_ID" (pyStrOptNat p.taskId),
                SpaceAction.uploadFile (repoIdOf p i) "README.md" (spaceReadme p i),
                SpaceAction.uploadFile (repoIdOf p i) "Dockerfile" spaceDockerfile]) := by
  obtain ⟨hb1, hb2⟩ := backend_checks_of_lookup p hw h
  refine ⟨spacesLoop p hw 0 p.jobParams, ?_, ?_, ?_, ?_, ?_, ?_, ?_⟩
  · simp only [atCreate, hb1, hb2, Bool.false_eq_true, if_false, h, Option.isSome_some,
      if_true, create_spaces]
    rfl
  · rw [countP_spacesLoop p hw isCreateRepo 1 (countP_spaceRowActions_createRepo p hw)]
    exact Nat.one_mul _
  · exact countP_spacesLoop p hw isAddSecret 6 (countP_spaceRowActions_addSecret p hw) 0 _
  · exact countP_spacesLoop p hw isUploadFile 2 (countP_spaceRowActions_uploadFile p hw) 0 _
  · rw [countP_spacesLoop p hw isHttpPost 0 (countP_spaceRowActions_httpPost p hw) 0 _]
    exact Nat.zero_mul _
  · intro i r hget
    refine ⟨?_, ?_, ?_, ?_, ?_, ?_, ?_, ?_, ?_⟩ <;>
      exact mem_spacesLoop_of_mem_row p hw _ 0 i p.jobParams r hget
        (by rw [Nat.zero_add]; simp [spaceRowActions])
  · intro a ha
    obtain ⟨i, r, hget, hmem⟩ := mem_row_of_mem_spacesLoop p hw a 0 p.jobParams ha
    exact ⟨i, r, hget, by simpa [spaceRowActions, Nat.zero_add] using hmem⟩

/-- Witness for C8 on the "A10G Large" tier with one parameter row. -/
theorem c8_witness :
    ∃ acts, atCreate sampleATState = .ok (some acts)
      ∧ acts.countP isCreateRepo = sampleATState.jobParams.length
      ∧ acts.countP isAddSecret = 6 * sampleATState.jobParams.length
      ∧ acts.countP isUploadFile = 2 * sampleATState.jobParams.length
      ∧ acts.countP isHttpPost = 0
      ∧ (∀ (i : Nat) (r : Record), sampleATState.jobParams.get? i = some r →
           SpaceAction.createRepo (repoIdOf sampleATState i) "space" "docker"
             "a10g-large" true ∈ acts ∧
           SpaceAction.addSecret (repoIdOf sampleATState i) "HF_TOKEN"
             sampleATState.token ∈ acts ∧
           SpaceAction.addSecret (repoIdOf sampleATState i) "AUTOTRAIN_USERNAME"
             sampleATState.username ∈ acts ∧
           SpaceAction.addSecret (repoIdOf sampleATState i) "PROJECT_NAME"
             sampleATState.projectName ∈ acts ∧
           SpaceAction.addSecret (repoIdOf sampleATState i) "PARAMS"
             (serializeRecord r) ∈ acts ∧
           SpaceAction.addSecret (repoIdOf sampleATState i) "DATA_PATH"
             (dataPath sampleATState) ∈ acts ∧
           SpaceAction.addSecret (repoIdOf sampleATState i) "TASK_ID"
             (pyStrOptNat sampleATState.taskId) ∈ acts ∧
           SpaceAction.uploadFile (repoIdOf sampleATState i) "README.md"
             (spaceReadme sampleATState i) ∈ acts ∧
           SpaceAction.uploadFile (repoIdOf sampleATState i) "Dockerfile"
             spaceDockerfile ∈ acts)
      ∧ (∀ a ∈ acts, ∃ i r, sampleATState.jobParams.get? i = some r ∧
           a ∈ [SpaceAction.createRepo (repoIdOf sampleATState i) "space" "docker"
                  "a10g-large" true,
                SpaceAction.addSecret (repoIdOf sampleATState i) "HF_TOKEN"
                  sampleATState.token,
                SpaceAction.addSecret (repoIdOf sampleATState i) "AUTOTRAIN_USERNAME"
                  sampleATState.username,
                SpaceAction.addSecret (repoIdOf sampleATState i) "PROJECT_NAME"
                  sampleATState.projectName,
                SpaceAction.addSecret (repoIdOf sampleATState i) "PARAMS"
                  (serializeRecord r),
                SpaceAction.addSecret (repoIdOf sampleATState i) "DATA_PATH"
                  (dataPath sampleATState),
                SpaceAction.addSecret (repoIdOf sampleATState i) "TASK_ID"
                  (pyStrOptNat sampleATState.taskId),
                SpaceAction.uploadFile (repoIdOf sampleATState i) "README.md"
                  (spaceReadme sampleATState i),
                SpaceAction.uploadFile (repoIdOf sampleATState i) "Dockerfile"
                  spaceDockerfile]) :=
  c8_spaces_provisioning sampleATState "a10g-large" rfl
